import Mathlib

/-!
Verification of the fault-injection module `trapdata/antenna/fault_injector.py`.

The module is embedded shallowly:
* the injector configuration (`FaultInjector.__init__`) becomes a structure
  built by `FaultInjector.ofEnv` from an environment snapshot;
* Python floats are modelled by rationals (the code only compares them);
* each call to `random.random()` becomes an explicit draw parameter
  `d : ℚ` with `0 ≤ d < 1`, and `random.choice` over the three network
  errors becomes an explicit index `choice : Fin 3`;
* raised exceptions become `Except` values over inductive error types whose
  constructors mirror the distinct Python exception classes;
* `sys.exit(1)` becomes the `CrashOutcome.exited 1` result.
-/

namespace FaultInjection

/-- Configuration state of `FaultInjector`, as set up by `__init__`. -/
structure FaultInjector where
  enabled : Bool
  worker_crash_rate : ℚ
  network_error_rate : ℚ
  corrupt_image_rate : ℚ
  image_404_rate : ℚ
  transient_error_rate : ℚ
  permanent_error_images : List String
deriving DecidableEq, Repr

/-- Snapshot of the environment variables read by `FaultInjector.__init__`.
Each field is `none` when the variable is unset. -/
structure Env where
  fault_injection_enabled : Option String
  worker_crash_rate : Option String
  network_error_rate : Option String
  corrupt_image_rate : Option String
  image_404_rate : Option String
  transient_error_rate : Option String
  permanent_error_images : Option String
deriving DecidableEq, Repr

/-- `FaultInjector._parse_rate`, parameterised by the result of the numeric
conversion performed by the Python builtin `float` (`none` models a
`ValueError`): a failed conversion or a value outside `[0.0, 1.0]` yields the
default, otherwise the parsed value. -/
def parse_rate (conv : Option ℚ) (default : ℚ) : ℚ :=
  match conv with
  | none => default
  | some rate => if 0 ≤ rate ∧ rate ≤ 1 then rate else default

/-- Python `str.split(sep)` with a single-character separator, over the
character list: adjacent separators yield empty fields and the result list is
never empty (the empty string splits to one empty field). -/
def splitOnChar (sep : Char) : List Char → List (List Char)
  | [] => [[]]
  | c :: cs =>
    if c = sep then [] :: splitOnChar sep cs
    else
      match splitOnChar sep cs with
      | [] => [[c]]
      | r :: rs => (c :: r) :: rs

/-- Python `str.strip()` (no argument): remove leading and trailing
whitespace. -/
def pyStrip (cs : List Char) : List Char :=
  ((cs.dropWhile Char.isWhitespace).reverse.dropWhile Char.isWhitespace).reverse

/-- Python `str.lower()`, restricted to the ASCII range the configuration
flag uses. -/
def pyLower (s : String) : String :=
  String.mk (s.data.map Char.toLower)

/-- Parsing of `AMI_TEST_PERMANENT_ERROR_IMAGES` in `__init__`: split on
commas, strip whitespace, drop empty entries; the empty string yields the
empty set (Python string truthiness guard). -/
def parsePermanentImages (s : String) : List String :=
  if s = "" then []
  else
    ((splitOnChar (Char.ofNat 44) s.data).map (fun cs => String.mk (pyStrip cs))).filter
      (fun img => img != "")

/-- `FaultInjector.__init__`: builds the configuration from the environment
snapshot.  `conv` models the Python builtin `float` applied to a string
(`none` for a `ValueError`); the literal defaults mirror the source. -/
def FaultInjector.ofEnv (conv : String → Option ℚ) (env : Env) : FaultInjector :=
  { enabled := pyLower (env.fault_injection_enabled.getD "false") == "true"
    worker_crash_rate := parse_rate (conv (env.worker_crash_rate.getD "0.0")) 0
    network_error_rate := parse_rate (conv (env.network_error_rate.getD "0.0")) 0
    corrupt_image_rate := parse_rate (conv (env.corrupt_image_rate.getD "0.0")) 0
    image_404_rate := parse_rate (conv (env.image_404_rate.getD "0.0")) 0
    transient_error_rate := parse_rate (conv (env.transient_error_rate.getD "0.0")) 0
    permanent_error_images := parsePermanentImages (env.permanent_error_images.getD "") }

/-- `FaultInjector._should_trigger`: `self.enabled and random.random() < rate`,
with the draw `d` passed explicitly. -/
def FaultInjector.should_trigger (inj : FaultInjector) (rate : ℚ) (d : ℚ) : Bool :=
  inj.enabled && decide (d < rate)

/-- The filename derivation in `_is_permanent_error_image`:
`image_url.split("/")[-1] if "/" in image_url else image_url`. -/
def python_basename (image_url : String) : String :=
  if image_url.data.contains (Char.ofNat 47) then
    String.mk ((splitOnChar (Char.ofNat 47) image_url.data).getLastD image_url.data)
  else image_url

/-- `FaultInjector._is_permanent_error_image`: `False` when disabled or the
set is empty, otherwise membership of the full identifier or its filename. -/
def FaultInjector.is_permanent_error_image (inj : FaultInjector) (image_url : String) : Bool :=
  if !inj.enabled || inj.permanent_error_images.isEmpty then false
  else
    inj.permanent_error_images.contains image_url
      || inj.permanent_error_images.contains (python_basename image_url)

/-- Outcome of `maybe_crash_worker`: either the process exited with a code
(`sys.exit(1)`) or the call returned normally. -/
inductive CrashOutcome where
  | exited (code : Nat)
  | returned
deriving DecidableEq, Repr

/-- `FaultInjector.maybe_crash_worker`: on trigger, `sys.exit(1)`. -/
def FaultInjector.maybe_crash_worker (inj : FaultInjector) (d : ℚ) : CrashOutcome :=
  if inj.should_trigger inj.worker_crash_rate d then .exited 1 else .returned

/-- `FaultInjector.maybe_network_error`. -/
def FaultInjector.maybe_network_error (inj : FaultInjector) (d : ℚ) : Bool :=
  if inj.should_trigger inj.network_error_rate d then true else false

/-- `FaultInjector.maybe_image_404`: permanent-error check first, then the
probabilistic draw against `image_404_rate`. -/
def FaultInjector.maybe_image_404 (inj : FaultInjector) (image_url : String) (d : ℚ) : Bool :=
  if inj.is_permanent_error_image image_url then true
  else if inj.should_trigger inj.image_404_rate d then true
  else false

/-- `FaultInjector.maybe_corrupt_image`: permanent-error check first, then the
probabilistic draw against `corrupt_image_rate`. -/
def FaultInjector.maybe_corrupt_image (inj : FaultInjector) (image_url : String) (d : ℚ) : Bool :=
  if inj.is_permanent_error_image image_url then true
  else if inj.should_trigger inj.corrupt_image_rate d then true
  else false

/-- `FaultInjector.maybe_transient_error`. -/
def FaultInjector.maybe_transient_error (inj : FaultInjector) (d : ℚ) : Bool :=
  if inj.should_trigger inj.transient_error_rate d then true else false

/-- The exception raised by `raise_network_error`: one of
`requests.exceptions.ConnectionError`, `requests.exceptions.Timeout`,
`requests.exceptions.HTTPError` (distinct Python classes). -/
inductive NetworkError where
  | connectionError (msg : String)
  | timeoutError (msg : String)
  | httpError (msg : String)
deriving DecidableEq, Repr

/-- The three-element `error_types` list built inside `raise_network_error`. -/
def networkErrorList (operation : String) : List NetworkError :=
  [ .connectionError ("Simulated connection error during " ++ operation)
  , .timeoutError ("Simulated timeout during " ++ operation)
  , .httpError ("Simulated HTTP 500 error during " ++ operation) ]

/-- `FaultInjector.raise_network_error`: `raise random.choice(error_types)`,
with the uniformly chosen index passed explicitly. -/
def FaultInjector.raise_network_error (inj : FaultInjector) (operation : String)
    (choice : Fin 3) : Except NetworkError Unit :=
  .error ((networkErrorList operation).get (choice.cast rfl))

/-- The exception raised by `raise_image_error`: the four branches raise
`requests.exceptions.HTTPError` (with a 404 response attached), `ValueError`,
`requests.exceptions.Timeout`, and `RuntimeError` — distinct Python classes. -/
inductive ImageError where
  | httpError (msg : String) (status : Nat)
  | valueError (msg : String)
  | timeoutError (msg : String)
  | runtimeError (msg : String)
deriving DecidableEq, Repr

/-- `FaultInjector.raise_image_error`: string dispatch on `error_type`. -/
def FaultInjector.raise_image_error (inj : FaultInjector) (image_url : String)
    (error_type : String) : Except ImageError Unit :=
  if error_type == "404" then
    .error (.httpError "404 Not Found" 404)
  else if error_type == "corrupt" then
    .error (.valueError ("Simulated corrupt image data for " ++ image_url))
  else if error_type == "timeout" then
    .error (.timeoutError ("Simulated timeout downloading " ++ image_url))
  else
    .error (.runtimeError ("Simulated unknown error for image " ++ image_url))

/-- `FaultInjector.get_corrupt_image_data`: the fixed invalid payload
(ASCII bytes rendered as a string). -/
def FaultInjector.get_corrupt_image_data (inj : FaultInjector) : String :=
  "CORRUPT_IMAGE_DATA_NOT_VALID_JPEG_OR_PNG"

/-- The failure kind of each `raise_image_error` branch, identified by the
Python exception class it raises. -/
inductive ImageErrorKind where
  | http404
  | corruptData
  | timedOut
  | generic
deriving DecidableEq, Repr

/-- Kind of a raised `ImageError` (the Python exception class). -/
def ImageError.kind : ImageError → ImageErrorKind
  | .httpError _ _ => .http404
  | .valueError _ => .corruptData
  | .timeoutError _ => .timedOut
  | .runtimeError _ => .generic

/-- Kind of the outcome of an image-error raising call (`none` for a normal
return). -/
def raisedImageKind : Except ImageError Unit → Option ImageErrorKind
  | .error e => some e.kind
  | .ok _ => none

/-- The failure kind of each `raise_network_error` candidate, identified by
the Python exception class. -/
inductive NetworkErrorKind where
  | connectionRefused
  | timedOut
  | serverError500
deriving DecidableEq, Repr

/-- Kind of a raised `NetworkError` (the Python exception class). -/
def NetworkError.kind : NetworkError → NetworkErrorKind
  | .connectionError _ => .connectionRefused
  | .timeoutError _ => .timedOut
  | .httpError _ => .serverError500

/-- Kind of the outcome of a network-error raising call (`none` for a normal
return). -/
def raisedNetworkKind : Except NetworkError Unit → Option NetworkErrorKind
  | .error e => some e.kind
  | .ok _ => none

/-!
State-passing versions of all operations.  Each Python method body contains
no assignment to `self`, so the post-state component is the receiver.
-/

/-- `maybe_crash_worker` with its post-state. -/
def FaultInjector.maybe_crash_worker_run (inj : FaultInjector) (d : ℚ) :
    CrashOutcome × FaultInjector :=
  (inj.maybe_crash_worker d, inj)

/-- `maybe_network_error` with its post-state. -/
def FaultInjector.maybe_network_error_run (inj : FaultInjector) (d : ℚ) :
    Bool × FaultInjector :=
  (inj.maybe_network_error d, inj)

/-- `maybe_image_404` with its post-state. -/
def FaultInjector.maybe_image_404_run (inj : FaultInjector) (url : String) (d : ℚ) :
    Bool × FaultInjector :=
  (inj.maybe_image_404 url d, inj)

/-- `maybe_corrupt_image` with its post-state. -/
def FaultInjector.maybe_corrupt_image_run (inj : FaultInjector) (url : String) (d : ℚ) :
    Bool × FaultInjector :=
  (inj.maybe_corrupt_image url d, inj)

/-- `maybe_transient_error` with its post-state. -/
def FaultInjector.maybe_transient_error_run (inj : FaultInjector) (d : ℚ) :
    Bool × FaultInjector :=
  (inj.maybe_transient_error d, inj)

/-- `raise_network_error` with its post-state. -/
def FaultInjector.raise_network_error_run (inj : FaultInjector) (operation : String)
    (choice : Fin 3) : Except NetworkError Unit × FaultInjector :=
  (inj.raise_network_error operation choice, inj)

/-- `raise_image_error` with its post-state. -/
def FaultInjector.raise_image_error_run (inj : FaultInjector) (url : String)
    (error_type : String) : Except ImageError Unit × FaultInjector :=
  (inj.raise_image_error url error_type, inj)

/-- `get_corrupt_image_data` with its post-state. -/
def FaultInjector.get_corrupt_image_data_run (inj : FaultInjector) :
    String × FaultInjector :=
  (inj.get_corrupt_image_data, inj)

/-- `log_statistics` with its post-state (the method only logs). -/
def FaultInjector.log_statistics_run (inj : FaultInjector) : Unit × FaultInjector :=
  ((), inj)

/-- One call to an injector operation, with its random inputs made explicit. -/
inductive Call where
  | crashWorker (d : ℚ)
  | networkError (d : ℚ)
  | image404 (url : String) (d : ℚ)
  | corruptImage (url : String) (d : ℚ)
  | transientError (d : ℚ)
  | raiseNetworkError (operation : String) (choice : Fin 3)
  | raiseImageError (url : String) (error_type : String)
  | getCorruptImageData
  | logStatistics
deriving DecidableEq

/-- The injector state after one call. -/
def FaultInjector.step (inj : FaultInjector) : Call → FaultInjector
  | .crashWorker d => (inj.maybe_crash_worker_run d).2
  | .networkError d => (inj.maybe_network_error_run d).2
  | .image404 url d => (inj.maybe_image_404_run url d).2
  | .corruptImage url d => (inj.maybe_corrupt_image_run url d).2
  | .transientError d => (inj.maybe_transient_error_run d).2
  | .raiseNetworkError operation choice => (inj.raise_network_error_run operation choice).2
  | .raiseImageError url error_type => (inj.raise_image_error_run url error_type).2
  | .getCorruptImageData => inj.get_corrupt_image_data_run.2
  | .logStatistics => inj.log_statistics_run.2

/-!  Concrete example injectors used as witnesses. -/

/-- A disabled injector whose rates are all 1 and whose permanent set is
non-empty: a stress test for the master switch. -/
def disabledEx : FaultInjector :=
  { enabled := false, worker_crash_rate := 1, network_error_rate := 1
    corrupt_image_rate := 1, image_404_rate := 1, transient_error_rate := 1
    permanent_error_images := ["a.jpg"] }

/-- An enabled injector with rate 1 everywhere and an empty permanent set. -/
def enabledEx : FaultInjector :=
  { enabled := true, worker_crash_rate := 1, network_error_rate := 1
    corrupt_image_rate := 1, image_404_rate := 1, transient_error_rate := 1
    permanent_error_images := [] }

/-- An enabled injector with all rates 0 and permanent set containing only
the filename a.jpg. -/
def permEx : FaultInjector :=
  { enabled := true, worker_crash_rate := 0, network_error_rate := 0
    corrupt_image_rate := 0, image_404_rate := 0, transient_error_rate := 0
    permanent_error_images := ["a.jpg"] }

/-- The spec scenario: enabled, all rates 0, permanent set containing only
y.jpg. -/
def scenarioEx : FaultInjector :=
  { enabled := true, worker_crash_rate := 0, network_error_rate := 0
    corrupt_image_rate := 0, image_404_rate := 0, transient_error_rate := 0
    permanent_error_images := ["y.jpg"] }

/-- An example numeric-conversion function standing in for the Python builtin
`float` on the strings an example environment provides. -/
def convEx : String → Option ℚ :=
  fun s =>
    if s = "2.0" then some 2
    else if s = "1.0" then some 1
    else if s = "0.0" then some 0
    else none

/-- An example environment: enabled, one malformed rate, one out-of-range
rate, one valid rate, the rest unset. -/
def envEx : Env :=
  { fault_injection_enabled := some "True"
    worker_crash_rate := some "abc"
    network_error_rate := some "2.0"
    corrupt_image_rate := some "1.0"
    image_404_rate := none
    transient_error_rate := none
    permanent_error_images := some " a.jpg, ,b.jpg " }

end FaultInjection

namespace FaultInjection

/-- Claim C1: with the master switch off, every maybe query reports no fault
regardless of the configured rates, and permanent-failure matching is
bypassed even for listed identifiers. -/
theorem disabled_injector_no_faults (inj : FaultInjector) (h : inj.enabled = false)
    (url : String) (d : ℚ) :
    inj.maybe_crash_worker d = CrashOutcome.returned ∧
    inj.maybe_network_error d = false ∧
    inj.maybe_image_404 url d = false ∧
    inj.maybe_corrupt_image url d = false ∧
    inj.maybe_transient_error d = false ∧
    inj.is_permanent_error_image url = false := by
  have hp : inj.is_permanent_error_image url = false := by
    simp [FaultInjector.is_permanent_error_image, h]
  refine ⟨?_, ?_, ?_, ?_, ?_, hp⟩ <;>
    simp [FaultInjector.maybe_crash_worker, FaultInjector.maybe_network_error,
      FaultInjector.maybe_image_404, FaultInjector.maybe_corrupt_image,
      FaultInjector.maybe_transient_error, FaultInjector.should_trigger, hp, h]

/-- Witness for C1. -/
theorem disabled_injector_no_faults_witness :
    disabledEx.enabled = false ∧
    (disabledEx.maybe_crash_worker 0 = CrashOutcome.returned ∧
     disabledEx.maybe_network_error 0 = false ∧
     disabledEx.maybe_image_404 "a.jpg" 0 = false ∧
     disabledEx.maybe_corrupt_image "a.jpg" 0 = false ∧
     disabledEx.maybe_transient_error 0 = false ∧
     disabledEx.is_permanent_error_image "a.jpg" = false) :=
  ⟨rfl, disabled_injector_no_faults disabledEx rfl "a.jpg" 0⟩

theorem parse_rate_default_mem (c : Option ℚ) :
    0 ≤ parse_rate c 0 ∧ parse_rate c 0 ≤ 1 := by
  rcases c with _ | r
  · simp [parse_rate]
  · simp only [parse_rate]
    split
    · next h => exact h
    · norm_num

/-- Claim C2: rate parsing falls back to the default 0.0 on failed conversion
or out-of-range values, keeps in-range values, and every stored rate of a
constructed injector lies in the interval from 0 to 1. -/
theorem rate_parsing_spec (conv : String → Option ℚ) (env : Env) (r : ℚ) :
    parse_rate none 0 = 0 ∧
    (¬(0 ≤ r ∧ r ≤ 1) → parse_rate (some r) 0 = 0) ∧
    ((0 ≤ r ∧ r ≤ 1) → parse_rate (some r) 0 = r) ∧
    (0 ≤ (FaultInjector.ofEnv conv env).worker_crash_rate ∧
      (FaultInjector.ofEnv conv env).worker_crash_rate ≤ 1) ∧
    (0 ≤ (FaultInjector.ofEnv conv env).network_error_rate ∧
      (FaultInjector.ofEnv conv env).network_error_rate ≤ 1) ∧
    (0 ≤ (FaultInjector.ofEnv conv env).corrupt_image_rate ∧
      (FaultInjector.ofEnv conv env).corrupt_image_rate ≤ 1) ∧
    (0 ≤ (FaultInjector.ofEnv conv env).image_404_rate ∧
      (FaultInjector.ofEnv conv env).image_404_rate ≤ 1) ∧
    (0 ≤ (FaultInjector.ofEnv conv env).transient_error_rate ∧
      (FaultInjector.ofEnv conv env).transient_error_rate ≤ 1) := by
  refine ⟨rfl, ?_, ?_, parse_rate_default_mem _, parse_rate_default_mem _,
    parse_rate_default_mem _, parse_rate_default_mem _, parse_rate_default_mem _⟩
  · intro h; simp [parse_rate, h]
  · intro h; simp [parse_rate, h]

/-- Witness for C2. -/
theorem rate_parsing_spec_witness :
    parse_rate (some (2 : ℚ)) 0 = 0 ∧ parse_rate (some (1 : ℚ)) 0 = 1 ∧
    (0 ≤ (FaultInjector.ofEnv convEx envEx).network_error_rate ∧
      (FaultInjector.ofEnv convEx envEx).network_error_rate ≤ 1) := by
  have h := rate_parsing_spec convEx envEx 2
  have h1 := rate_parsing_spec convEx envEx 1
  exact ⟨h.2.1 (by decide), h1.2.2.1 (by decide), h.2.2.2.2.1⟩

/-- Claim C3: a fault triggers exactly when the injector is enabled and the
draw is strictly below the rate; rate 0 never triggers on a draw bounded
below by 0 and rate 1 always triggers on a draw strictly below 1. -/
theorem should_trigger_semantics (inj : FaultInjector) (rate d : ℚ) :
    (inj.should_trigger rate d = true ↔ (inj.enabled = true ∧ d < rate)) ∧
    (0 ≤ d → inj.should_trigger 0 d = false) ∧
    (inj.enabled = true → d < 1 → inj.should_trigger 1 d = true) := by
  refine ⟨?_, ?_, ?_⟩
  · simp [FaultInjector.should_trigger]
  · intro h0
    simp [FaultInjector.should_trigger]
    intro _
    exact h0
  · intro he hd
    simp [FaultInjector.should_trigger, he, hd]

/-- Witness for C3. -/
theorem should_trigger_semantics_witness :
    enabledEx.should_trigger 1 0 = true ∧ enabledEx.should_trigger 0 0 = false := by
  have h := should_trigger_semantics enabledEx 1 0
  exact ⟨h.2.2 rfl (by decide), h.2.1 (by decide)⟩

/-- Claim C4: with the injector enabled, permanent-failure matching succeeds
exactly when the identifier or its derived filename is in the set; matching
always fails when disabled or when the set is empty; the set consisting of
a.jpg matches a.jpg and its full URL but not b.jpg. -/
theorem permanent_matching_spec (inj : FaultInjector) (s : String) :
    (inj.enabled = true → inj.permanent_error_images ≠ [] →
      (inj.is_permanent_error_image s = true ↔
        s ∈ inj.permanent_error_images ∨
          python_basename s ∈ inj.permanent_error_images)) ∧
    (inj.enabled = false → inj.is_permanent_error_image s = false) ∧
    (inj.permanent_error_images = [] → inj.is_permanent_error_image s = false) ∧
    permEx.is_permanent_error_image "a.jpg" = true ∧
    permEx.is_permanent_error_image "http://host/path/a.jpg" = true ∧
    permEx.is_permanent_error_image "b.jpg" = false := by
  refine ⟨?_, ?_, ?_, by decide, by decide, by decide⟩
  · intro he hne
    simp [FaultInjector.is_permanent_error_image, he, hne]
  · intro he
    simp [FaultInjector.is_permanent_error_image, he]
  · intro hemp
    simp [FaultInjector.is_permanent_error_image, hemp]

/-- Witness for C4. -/
theorem permanent_matching_spec_witness :
    permEx.is_permanent_error_image "http://host/path/a.jpg" = true ∧
    permEx.is_permanent_error_image "b.jpg" = false := by
  have h := permanent_matching_spec permEx "http://host/path/a.jpg"
  exact ⟨(h.1 rfl (by decide)).mpr (Or.inr (by decide)), h.2.2.2.2.2⟩

/-- Claim C5: the image queries check the permanent set first and answer true
unconditionally on a match, otherwise they defer to the probability draw; in
the spec scenario the listed image fails and the unlisted one does not. -/
theorem image_queries_two_stage (inj : FaultInjector) (url : String) (d : ℚ) :
    (inj.is_permanent_error_image url = true →
      inj.maybe_image_404 url d = true ∧ inj.maybe_corrupt_image url d = true) ∧
    (inj.is_permanent_error_image url = false →
      inj.maybe_image_404 url d = inj.should_trigger inj.image_404_rate d ∧
      inj.maybe_corrupt_image url d = inj.should_trigger inj.corrupt_image_rate d) ∧
    (0 ≤ d →
      scenarioEx.maybe_corrupt_image "y.jpg" d = true ∧
      scenarioEx.maybe_corrupt_image "z.jpg" d = false) := by
  refine ⟨?_, ?_, ?_⟩
  · intro hp
    simp [FaultInjector.maybe_image_404, FaultInjector.maybe_corrupt_image, hp]
  · intro hp
    constructor <;>
      · simp only [FaultInjector.maybe_image_404, FaultInjector.maybe_corrupt_image, hp,
          if_false, Bool.false_eq_true]
        split <;> simp_all
  · intro hd
    have hy : scenarioEx.is_permanent_error_image "y.jpg" = true := by decide
    have hz : scenarioEx.is_permanent_error_image "z.jpg" = false := by decide
    refine ⟨by simp [FaultInjector.maybe_corrupt_image, hy], ?_⟩
    have hrate : scenarioEx.corrupt_image_rate = 0 := rfl
    simp [FaultInjector.maybe_corrupt_image, hz, FaultInjector.should_trigger, hrate]
    intro _
    exact hd

/-- Witness for C5. -/
theorem image_queries_two_stage_witness :
    scenarioEx.maybe_corrupt_image "y.jpg" 0 = true ∧
    scenarioEx.maybe_corrupt_image "z.jpg" 0 = false :=
  (image_queries_two_stage scenarioEx "y.jpg" 0).2.2 (by decide)

/-- Claim C6: raise_image_error always signals a failure; the 404, corrupt
and timeout inputs map to their dedicated failure kinds, any other input maps
to the generic kind, and the four kinds are pairwise distinct. -/
theorem raise_image_error_spec (inj : FaultInjector) (url : String) (error_type : String) :
    (∃ e, inj.raise_image_error url error_type = Except.error e) ∧
    raisedImageKind (inj.raise_image_error url "404") = some ImageErrorKind.http404 ∧
    raisedImageKind (inj.raise_image_error url "corrupt") = some ImageErrorKind.corruptData ∧
    raisedImageKind (inj.raise_image_error url "timeout") = some ImageErrorKind.timedOut ∧
    (error_type ≠ "404" → error_type ≠ "corrupt" → error_type ≠ "timeout" →
      raisedImageKind (inj.raise_image_error url error_type) = some ImageErrorKind.generic) ∧
    List.Pairwise (fun a b => a ≠ b)
      [ImageErrorKind.http404, ImageErrorKind.corruptData, ImageErrorKind.timedOut,
        ImageErrorKind.generic] := by
  refine ⟨?_, rfl, rfl, rfl, ?_, by decide⟩
  · unfold FaultInjector.raise_image_error
    split_ifs <;> exact ⟨_, rfl⟩
  · intro h1 h2 h3
    simp [FaultInjector.raise_image_error, h1, h2, h3, raisedImageKind, ImageError.kind]

/-- Witness for C6. -/
theorem raise_image_error_spec_witness :
    raisedImageKind (permEx.raise_image_error "img.jpg" "weird")
      = some ImageErrorKind.generic :=
  (raise_image_error_spec permEx "img.jpg" "weird").2.2.2.2.1
    (by decide) (by decide) (by decide)

/-- Claim C7: raise_network_error always signals exactly one failure drawn
from the three network kinds, and the uniform choice over the three-element
list reaches each kind exactly once. -/
theorem raise_network_error_spec (inj : FaultInjector) (operation : String) (choice : Fin 3) :
    (∃ e, inj.raise_network_error operation choice = Except.error e ∧
      (e.kind = NetworkErrorKind.connectionRefused ∨ e.kind = NetworkErrorKind.timedOut ∨
        e.kind = NetworkErrorKind.serverError500)) ∧
    (List.finRange 3).map (fun c => raisedNetworkKind (inj.raise_network_error operation c))
      = [some NetworkErrorKind.connectionRefused, some NetworkErrorKind.timedOut,
         some NetworkErrorKind.serverError500] := by
  refine ⟨?_, rfl⟩
  fin_cases choice
  · exact ⟨_, rfl, Or.inl rfl⟩
  · exact ⟨_, rfl, Or.inr (Or.inl rfl)⟩
  · exact ⟨_, rfl, Or.inr (Or.inr rfl)⟩

/-- Claim C8: maybe_crash_worker exits the process exactly when the injector
is enabled and the draw is below the crash rate; otherwise it returns
normally and leaves the injector state unchanged. -/
theorem crash_worker_spec (inj : FaultInjector) (d : ℚ) :
    (inj.maybe_crash_worker d = CrashOutcome.exited 1 ↔
      (inj.enabled = true ∧ d < inj.worker_crash_rate)) ∧
    (inj.enabled = false → inj.maybe_crash_worker d = CrashOutcome.returned) ∧
    (¬ d < inj.worker_crash_rate → inj.maybe_crash_worker d = CrashOutcome.returned) ∧
    (inj.maybe_crash_worker_run d).2 = inj := by
  refine ⟨?_, ?_, ?_, rfl⟩
  · constructor
    · intro h
      by_cases ht : inj.should_trigger inj.worker_crash_rate d = true
      · simpa [FaultInjector.should_trigger] using ht
      · simp [FaultInjector.maybe_crash_worker, ht] at h
    · rintro ⟨he, hlt⟩
      have ht : inj.should_trigger inj.worker_crash_rate d = true := by
        simp [FaultInjector.should_trigger, he, hlt]
      simp [FaultInjector.maybe_crash_worker, ht]
  · intro he
    simp [FaultInjector.maybe_crash_worker, FaultInjector.should_trigger, he]
  · intro hn
    simp [FaultInjector.maybe_crash_worker, FaultInjector.should_trigger, hn]

/-- Witness for C8. -/
theorem crash_worker_spec_witness :
    enabledEx.maybe_crash_worker 0 = CrashOutcome.exited 1 ∧
    disabledEx.maybe_crash_worker 0 = CrashOutcome.returned := by
  constructor
  · exact (crash_worker_spec enabledEx 0).1.mpr ⟨rfl, by decide⟩
  · exact (crash_worker_spec disabledEx 0).2.1 rfl

/-- Claim C9: every sequence of operation calls leaves the injector state,
and in particular every configuration field, unchanged. -/
theorem config_immutable (inj : FaultInjector) (calls : List Call) :
    calls.foldl FaultInjector.step inj = inj ∧
    (calls.foldl FaultInjector.step inj).enabled = inj.enabled ∧
    (calls.foldl FaultInjector.step inj).worker_crash_rate = inj.worker_crash_rate ∧
    (calls.foldl FaultInjector.step inj).network_error_rate = inj.network_error_rate ∧
    (calls.foldl FaultInjector.step inj).corrupt_image_rate = inj.corrupt_image_rate ∧
    (calls.foldl FaultInjector.step inj).image_404_rate = inj.image_404_rate ∧
    (calls.foldl FaultInjector.step inj).transient_error_rate = inj.transient_error_rate ∧
    (calls.foldl FaultInjector.step inj).permanent_error_images
      = inj.permanent_error_images := by
  have hstep : ∀ (i : FaultInjector) (c : Call), i.step c = i := by
    intro i c
    cases c <;> rfl
  have h : calls.foldl FaultInjector.step inj = inj := by
    induction calls with
    | nil => rfl
    | cons c cs ih => rw [List.foldl_cons, hstep]; exact ih
  exact ⟨h, by rw [h], by rw [h], by rw [h], by rw [h], by rw [h], by rw [h], by rw [h]⟩

/-- Claim C10: the raising operations and the corrupt payload are independent
of the configuration: two injectors with arbitrary configurations produce
identical outcomes on the same inputs, and both always signal a failure. -/
theorem raise_ops_config_independent (inj1 inj2 : FaultInjector)
    (operation url error_type : String) (choice : Fin 3) :
    inj1.raise_network_error operation choice = inj2.raise_network_error operation choice ∧
    inj1.raise_image_error url error_type = inj2.raise_image_error url error_type ∧
    inj1.get_corrupt_image_data = inj2.get_corrupt_image_data ∧
    (∃ e, inj1.raise_network_error operation choice = Except.error e) ∧
    (∃ e, inj1.raise_image_error url error_type = Except.error e) := by
  refine ⟨rfl, rfl, rfl, ⟨_, rfl⟩, ?_⟩
  unfold FaultInjector.raise_image_error
  split_ifs <;> exact ⟨_, rfl⟩

end FaultInjection
